import Mathlib

/-!
Shallow embedding of `src/buffer.rs` from luminance-rs: GPU buffers with
typed element access, bulk transfer, mapped slice views, type erasure to a
raw handle, and the `UniformBlock` marker trait.

The driver (OpenGL) is modelled as follows: each operation returns, besides
its result, the list of driver calls it issues (`GLCall`), and the driver
memory backing a buffer is carried as a `List T` alongside the buffer's
Rust-side fields. `mem::size_of::<T>()` is the `elemSize` field, fixed when
the buffer is created.
-/

namespace Luminance

/-- Access modes passed to `gl::MapBuffer`. -/
inductive Access where
  | readOnly
  | writeOnly
  | readWrite
deriving DecidableEq, Repr

/-- The driver calls the buffer module issues (the `gl::*` calls in the source). -/
inductive GLCall where
  | genBuffers (handle : Nat)
  | bindArrayBuffer (handle : Nat)
  | bufferData (bytes : Nat)
  | mapBuffer (access : Access)
  | unmapBuffer
  | deleteBuffers (handle : Nat)
deriving DecidableEq, Repr

/-- `enum BufferError` from the source. -/
inductive BufferError where
  | Overflow (i : Nat) (size : Nat)
  | TooFewValues (nb : Nat) (size : Nat)
  | TooManyValues (nb : Nat) (size : Nat)
  | MapFailed
deriving DecidableEq, Repr

/-- `struct RawBuffer { handle, bytes, len, state }`; the shared `state`
(graphics-state tracker) only serves to issue bind calls, which the traces
record, so it needs no field here. -/
structure RawBuffer where
  handle : Nat
  bytes : Nat
  len : Nat
deriving DecidableEq, Repr

/-- `struct Buffer<T>` wraps a `RawBuffer`; `elemSize` is `mem::size_of::<T>()`
and `contents` is the driver memory backing the buffer, viewed as elements
of `T` (one element per `elemSize` bytes). -/
structure Buffer (T : Type) where
  raw : RawBuffer
  elemSize : Nat
  contents : List T

namespace Buffer

variable {T : Type}

/-- `Buffer::new(ctx, len)`: `bytes = mem::size_of::<T>() * len`, generates a
handle, binds it, allocates `bytes` bytes of uninitialised driver memory
(`gl::BufferData` with a null pointer); `uninit` stands for that
uninitialised memory. -/
def new (elemSize : Nat) (len : Nat) (handle : Nat) (uninit : List T) :
    Buffer T × List GLCall :=
  let bytes := elemSize * len
  (⟨⟨handle, bytes, len⟩, elemSize, uninit⟩,
   [.genBuffers handle, .bindArrayBuffer handle, .bufferData bytes])

/-- `Buffer::len()`. -/
def len (b : Buffer T) : Nat :=
  b.raw.len

/-- `Buffer::at(i)`: bounds check first (returning `None` issues no driver
call), then bind, map read-only, read `*ptr.offset(i)`, unmap. -/
def at' (b : Buffer T) (i : Nat) : Option T × List GLCall :=
  if i ≥ b.raw.len then
    (none, [])
  else
    (b.contents[i]?,
     [.bindArrayBuffer b.raw.handle, .mapBuffer .readOnly, .unmapBuffer])

/-- `Buffer::whole()`: binds, maps read-only, builds the returned vector from
the first `len` elements at the mapped pointer (`Vec::from_raw_parts(ptr,
self.len, self.len)`), unmaps. -/
def whole (b : Buffer T) : List T × List GLCall :=
  (b.contents.take b.raw.len,
   [.bindArrayBuffer b.raw.handle, .mapBuffer .readOnly, .unmapBuffer])

/-- `Buffer::set(i, x)`: bounds check first (the error path issues no driver
call and writes nothing), then bind, map write-only, write at offset `i`,
unmap. -/
def set (b : Buffer T) (i : Nat) (x : T) :
    Except BufferError Unit × Buffer T × List GLCall :=
  if i ≥ b.raw.len then
    (.error (.Overflow i b.raw.len), b, [])
  else
    (.ok (),
     { b with contents := b.contents.set i x },
     [.bindArrayBuffer b.raw.handle, .mapBuffer .writeOnly, .unmapBuffer])

/-- `Buffer::write_whole(values)`: compares `in_bytes = values.len() *
mem::size_of::<T>()` against `self.bytes`; on mismatch returns the tagged
error before any driver call; otherwise binds, maps write-only, copies
`real_bytes = in_bytes` bytes from `values` into the mapped region
(`ptr::copy_nonoverlapping`), unmaps. The byte copy overwrites the first
`real_bytes / elemSize` elements (zero elements when `T` is zero-sized). -/
def write_whole (b : Buffer T) (values : List T) :
    Except BufferError Unit × Buffer T × List GLCall :=
  let len := values.length
  let in_bytes := len * b.elemSize
  match compare in_bytes b.raw.bytes with
  | .lt => (.error (.TooFewValues len b.raw.len), b, [])
  | .gt => (.error (.TooManyValues len b.raw.len), b, [])
  | .eq =>
    let real_bytes := in_bytes
    let copied := real_bytes / b.elemSize
    (.ok (),
     { b with contents := values.take copied ++ b.contents.drop copied },
     [.bindArrayBuffer b.raw.handle, .mapBuffer .writeOnly, .unmapBuffer])

/-- `Buffer::clear(x)`: `write_whole(&vec![x; self.len])`. -/
def clear (b : Buffer T) (x : T) :
    Except BufferError Unit × Buffer T × List GLCall :=
  b.write_whole (List.replicate b.raw.len x)

/-- `Buffer::fill(values)`: `write_whole(values)`. -/
def fill (b : Buffer T) (values : List T) :
    Except BufferError Unit × Buffer T × List GLCall :=
  b.write_whole values

/-- `Buffer::to_raw()`: rebuilds the `RawBuffer` from the same fields and
`mem::forget`s `self`, so the conversion itself issues no driver call and
the typed wrapper's drop glue never runs. -/
def to_raw (b : Buffer T) : RawBuffer × List GLCall :=
  (⟨b.raw.handle, b.raw.bytes, b.raw.len⟩, [])

end Buffer

/-- `impl Drop for RawBuffer`: `gl::DeleteBuffers(1, &self.handle)`. -/
def RawBuffer.drop (r : RawBuffer) : List GLCall :=
  [.deleteBuffers r.handle]

/-- Dropping a `Buffer<T>` (which has no `Drop` impl of its own) runs the
drop glue of its `raw` field. -/
def Buffer.drop {T : Type} (b : Buffer T) : List GLCall :=
  b.raw.drop

/-- `struct BufferSlice<'a, T>`: a borrowed raw buffer and the mapped
pointer; `mem` is the driver memory at that pointer. -/
structure BufferSlice (T : Type) where
  raw : RawBuffer
  mem : List T

/-- `struct BufferSliceMut<'a, T>`. -/
structure BufferSliceMut (T : Type) where
  raw : RawBuffer
  mem : List T

/-- `RawBuffer::as_slice::<T>()`: binds the handle, maps read-only;
`mapResult = none` models the driver returning a null pointer, in which case
the function returns `MapFailed`; otherwise it wraps the pointer in a
`BufferSlice`. -/
def RawBuffer.as_slice (r : RawBuffer) (T : Type) (mapResult : Option (List T)) :
    Except BufferError (BufferSlice T) × List GLCall :=
  match mapResult with
  | none => (.error .MapFailed, [.bindArrayBuffer r.handle, .mapBuffer .readOnly])
  | some mem => (.ok ⟨r, mem⟩, [.bindArrayBuffer r.handle, .mapBuffer .readOnly])

/-- `RawBuffer::as_slice_mut::<T>()`: same with a read-write map. -/
def RawBuffer.as_slice_mut (r : RawBuffer) (T : Type) (mapResult : Option (List T)) :
    Except BufferError (BufferSliceMut T) × List GLCall :=
  match mapResult with
  | none => (.error .MapFailed, [.bindArrayBuffer r.handle, .mapBuffer .readWrite])
  | some mem => (.ok ⟨r, mem⟩, [.bindArrayBuffer r.handle, .mapBuffer .readWrite])

/-- `impl Deref for BufferSlice`: `slice::from_raw_parts(self.ptr, self.raw.len)`. -/
def BufferSlice.deref {T : Type} (s : BufferSlice T) : List T :=
  s.mem.take s.raw.len

/-- `impl Deref for BufferSliceMut`. -/
def BufferSliceMut.deref {T : Type} (s : BufferSliceMut T) : List T :=
  s.mem.take s.raw.len

/-- `impl Drop for BufferSlice`: rebinds the owning handle, then unmaps. -/
def BufferSlice.drop {T : Type} (s : BufferSlice T) : List GLCall :=
  [.bindArrayBuffer s.raw.handle, .unmapBuffer]

/-- `impl Drop for BufferSliceMut`: rebinds the owning handle, then unmaps. -/
def BufferSliceMut.drop {T : Type} (s : BufferSliceMut T) : List GLCall :=
  [.bindArrayBuffer s.raw.handle, .unmapBuffer]

/-- A fragment of Rust's type grammar large enough to state which types carry
the `UniformBlock` marker: the nine scalar types named by the impls, the
three float matrix aliases `M22`/`M33`/`M44`, fixed-length arrays `[t; n]`,
slices `[t]`, and tuples of any arity. -/
inductive Ty where
  | u8
  | u16
  | u32
  | i8
  | i16
  | i32
  | f32
  | f64
  | bool
  | m22
  | m33
  | m44
  | array (t : Ty) (n : Nat)
  | slice (t : Ty)
  | tuple (ts : List Ty)

/-- Whether a type is one of the nine scalars for which the module writes
`unsafe impl UniformBlock` directly and array impls of lengths 2, 3, 4. -/
def Ty.isScalar : Ty → Bool
  | .u8 | .u16 | .u32 | .i8 | .i16 | .i32 | .f32 | .f64 | .bool => true
  | _ => false

/-- The `UniformBlock` trait membership induced by the impls in the source:
the nine scalars; `M22`/`M33`/`M44`; `[s; n]` for each scalar `s` and `n ∈
{2, 3, 4}`; `[T]` when `T` is a member; and — via the nine
`impl_uniform_block_tuple!` invocations, from `(A, B)` up to
`(A, B, C, D, E, F, G, H, I, J)` — tuples of arity 2 through 10 whose
components are all members. -/
def uniformBlock : Ty → Bool
  | .u8 | .u16 | .u32 | .i8 | .i16 | .i32 | .f32 | .f64 | .bool => true
  | .m22 | .m33 | .m44 => true
  | .array t n => t.isScalar && (n == 2 || n == 3 || n == 4)
  | .slice t => uniformBlock t
  | .tuple ts =>
      decide (2 ≤ ts.length) && decide (ts.length ≤ 10) &&
        ts.attach.all fun t => uniformBlock t.1
decreasing_by
  · simp only [Ty.slice.sizeOf_spec]; omega
  · have := List.sizeOf_lt_of_mem t.2
    simp only [Ty.tuple.sizeOf_spec]; omega

/-- The compatible set exactly as claim C8 words it: the nine scalars, the
float matrices, 2/3/4-element vectors of each scalar, slices of compatible
element type, and tuples of arity 2–9 of compatible components — no tuple of
any other arity. Written from the claim's wording, to be compared against
`uniformBlock`. -/
def specCompatible : Ty → Bool
  | .u8 | .u16 | .u32 | .i8 | .i16 | .i32 | .f32 | .f64 | .bool => true
  | .m22 | .m33 | .m44 => true
  | .array t n => t.isScalar && [2, 3, 4].any fun k => n == k
  | .slice t => specCompatible t
  | .tuple ts =>
      ([2, 3, 4, 5, 6, 7, 8, 9].any fun k => ts.length == k) &&
        ts.attach.all fun t => specCompatible t.1
decreasing_by
  · simp only [Ty.slice.sizeOf_spec]; omega
  · have := List.sizeOf_lt_of_mem t.2
    simp only [Ty.tuple.sizeOf_spec]; omega

/-- The compatible set as claim C8 words it, but with the tuple arities
amended to 2–10, which is what the nine `impl_uniform_block_tuple!`
invocations actually cover. -/
def specCompatibleAmended : Ty → Bool
  | .u8 | .u16 | .u32 | .i8 | .i16 | .i32 | .f32 | .f64 | .bool => true
  | .m22 | .m33 | .m44 => true
  | .array t n => t.isScalar && [2, 3, 4].any fun k => n == k
  | .slice t => specCompatibleAmended t
  | .tuple ts =>
      ([2, 3, 4, 5, 6, 7, 8, 9, 10].any fun k => ts.length == k) &&
        ts.attach.all fun t => specCompatibleAmended t.1
decreasing_by
  · simp only [Ty.slice.sizeOf_spec]; omega
  · have := List.sizeOf_lt_of_mem t.2
    simp only [Ty.tuple.sizeOf_spec]; omega

/-! ### Theorems about the buffer operations -/

/-- C1: for every buffer of length `N` (its driver memory holding `N`
elements) and every index `i < N`, `set(i, v)` returns `Ok(())` and `at(i)`
on the resulting buffer returns `Some(v)`: an in-bounds write followed by a
read at the same index round-trips the written value. -/
theorem set_at_roundtrip {T : Type} (b : Buffer T) (i : Nat) (v : T)
    (hlen : b.contents.length = b.raw.len) (hi : i < b.raw.len) :
    (b.set i v).1 = .ok () ∧ ((b.set i v).2.1.at' i).1 = some v := by
  have hnot : ¬ i ≥ b.raw.len := by omega
  simp [Buffer.set, Buffer.at', hnot,
    List.getElem?_set_self (show i < b.contents.length by omega)]

/-- Witness for C1: a two-element `Buffer Nat`, writing 7 at index 1. -/
theorem set_at_roundtrip_witness :
    (Buffer.set (⟨⟨1, 8, 2⟩, 4, [0, 0]⟩ : Buffer Nat) 1 7).1 = .ok () ∧
      ((Buffer.set (⟨⟨1, 8, 2⟩, 4, [0, 0]⟩ : Buffer Nat) 1 7).2.1.at' 1).1 = some 7 :=
  set_at_roundtrip ⟨⟨1, 8, 2⟩, 4, [0, 0]⟩ 1 7 (by decide) (by decide)

/-- C3: for every index `i ≥ N`, `at(i)` returns `None` and `set(i, v)`
returns `Overflow(i, N)`; the bounds check comes before any driver call, so
on these paths the issued call trace is empty and the buffer is unchanged. -/
theorem out_of_bounds_before_driver {T : Type} (b : Buffer T) (i : Nat) (v : T)
    (hi : b.raw.len ≤ i) :
    (b.at' i).1 = none ∧ (b.at' i).2 = [] ∧
      (b.set i v).1 = .error (.Overflow i b.raw.len) ∧
      (b.set i v).2.1 = b ∧ (b.set i v).2.2 = [] := by
  have hge : i ≥ b.raw.len := hi
  simp [Buffer.at', Buffer.set, hge]

/-- Witness for C3: a one-element `Buffer Nat`, accessed at index 3. -/
theorem out_of_bounds_before_driver_witness :
    (Buffer.at' (⟨⟨1, 4, 1⟩, 4, [5]⟩ : Buffer Nat) 3).1 = none ∧
      (Buffer.at' (⟨⟨1, 4, 1⟩, 4, [5]⟩ : Buffer Nat) 3).2 = [] ∧
      (Buffer.set (⟨⟨1, 4, 1⟩, 4, [5]⟩ : Buffer Nat) 3 9).1 = .error (.Overflow 3 1) ∧
      (Buffer.set (⟨⟨1, 4, 1⟩, 4, [5]⟩ : Buffer Nat) 3 9).2.1 = ⟨⟨1, 4, 1⟩, 4, [5]⟩ ∧
      (Buffer.set (⟨⟨1, 4, 1⟩, 4, [5]⟩ : Buffer Nat) 3 9).2.2 = [] :=
  out_of_bounds_before_driver ⟨⟨1, 4, 1⟩, 4, [5]⟩ 3 9 (by decide)

/-- C5: `to_raw` returns a `RawBuffer` with the same handle, byte capacity
and element count, issues no driver call itself (in particular no delete:
`mem::forget` suppresses the typed wrapper's drop glue), and over the whole
lifetime — erasure followed by dropping the raw buffer — the driver-side
resource is deleted exactly once. -/
theorem to_raw_erasure_single_delete {T : Type} (b : Buffer T) :
    (b.to_raw).1.handle = b.raw.handle ∧
      (b.to_raw).1.bytes = b.raw.bytes ∧
      (b.to_raw).1.len = b.raw.len ∧
      (b.to_raw).2 = [] ∧
      ((b.to_raw).2 ++ (b.to_raw).1.drop).count (.deleteBuffers b.raw.handle) = 1 := by
  simp [Buffer.to_raw, RawBuffer.drop, List.count_cons, List.count_nil]

/-- C6: `new` stores exactly the requested element count and byte capacity
`size_of::<T>() * len` (the element count 0 included), and every mutating
operation (`set`, `write_whole`, `clear`, `fill`) leaves the `raw` fields —
handle, byte capacity, length — and the element size untouched; `at`,
`whole`, `as_slice` and `as_slice_mut` take the buffer immutably and return
no modified buffer, and `to_raw` carries length and capacity over
unchanged. -/
theorem new_len_bytes_invariant {T : Type} (elemSize n handle : Nat)
    (uninit : List T) (b : Buffer T) (i : Nat) (v : T) (values : List T) :
    (Buffer.new elemSize n handle uninit).1.raw.len = n ∧
      (Buffer.new elemSize n handle uninit).1.raw.bytes = elemSize * n ∧
      (b.set i v).2.1.raw = b.raw ∧ (b.set i v).2.1.elemSize = b.elemSize ∧
      (b.write_whole values).2.1.raw = b.raw ∧
      (b.write_whole values).2.1.elemSize = b.elemSize ∧
      (b.clear v).2.1.raw = b.raw ∧ (b.clear v).2.1.elemSize = b.elemSize ∧
      (b.fill values).2.1.raw = b.raw ∧ (b.fill values).2.1.elemSize = b.elemSize ∧
      (b.to_raw).1.len = b.raw.len ∧ (b.to_raw).1.bytes = b.raw.bytes := by
  refine ⟨rfl, rfl, ?_, ?_, ?_, ?_, ?_, ?_, ?_, ?_, rfl, rfl⟩ <;>
    (simp only [Buffer.set, Buffer.clear, Buffer.fill, Buffer.write_whole]
     split <;> rfl)

/-- C9: the drop glue of `BufferSlice` and of `BufferSliceMut` issues exactly
one unmap call against the driver, and the call preceding it rebinds the
owning buffer's handle. -/
theorem slice_drop_single_unmap {T : Type} (s : BufferSlice T)
    (m : BufferSliceMut T) :
    s.drop.count .unmapBuffer = 1 ∧
      s.drop.take 1 = [.bindArrayBuffer s.raw.handle] ∧
      m.drop.count .unmapBuffer = 1 ∧
      m.drop.take 1 = [.bindArrayBuffer m.raw.handle] := by
  simp [BufferSlice.drop, BufferSliceMut.drop, List.count_cons, List.count_nil]

/-- C2 counterexample: `write_whole` compares byte counts, not element
counts. With the zero-sized element type `()` (`size_of::<()>() == 0`) a
buffer of length 1 has byte capacity 0, and an empty input also spans 0
bytes, so the comparison sees `Ordering::Equal` and `write_whole` returns
`Ok(())` — the claim demands `Err(TooFewValues(0, 1))`, since the input has
fewer elements than the buffer. -/
theorem write_whole_zst_counterexample :
    (Buffer.write_whole (⟨⟨1, 0, 1⟩, 0, [()]⟩ : Buffer Unit) []).1 = .ok () ∧
      ([] : List Unit).length < (⟨⟨1, 0, 1⟩, 0, [()]⟩ : Buffer Unit).raw.len :=
  ⟨rfl, by decide⟩

/-- C2 (amended): for non-zero-sized `T` (`0 < size_of::<T>()`, and the byte
capacity the constructor established), `write_whole(values)` returns
`TooFewValues(values.len(), N)` exactly when `values` is shorter than `N`
and `TooManyValues(values.len(), N)` exactly when longer, issuing no driver
call and leaving the buffer unchanged on either error path, and returns
`Ok(())` with all `N` elements overwritten exactly when the lengths agree.
(For zero-sized `T` both byte counts are 0, so any input length is accepted
and zero bytes are copied.) -/
theorem write_whole_size_check {T : Type} (b : Buffer T) (values : List T)
    (hE : 0 < b.elemSize) (hbytes : b.raw.bytes = b.elemSize * b.raw.len)
    (hlen : b.contents.length = b.raw.len) :
    (values.length < b.raw.len →
        (b.write_whole values).1 = .error (.TooFewValues values.length b.raw.len) ∧
          (b.write_whole values).2.1 = b ∧ (b.write_whole values).2.2 = []) ∧
      (b.raw.len < values.length →
        (b.write_whole values).1 = .error (.TooManyValues values.length b.raw.len) ∧
          (b.write_whole values).2.1 = b ∧ (b.write_whole values).2.2 = []) ∧
      (values.length = b.raw.len →
        (b.write_whole values).1 = .ok () ∧
          (b.write_whole values).2.1.contents = values) := by
  refine ⟨fun h => ?_, fun h => ?_, fun h => ?_⟩
  · have hc : compare (values.length * b.elemSize) b.raw.bytes = .lt := by
      rw [Nat.compare_eq_lt, hbytes, Nat.mul_comm b.elemSize b.raw.len]
      exact Nat.mul_lt_mul_of_pos_right h hE
    simp [Buffer.write_whole, hc]
  · have hc : compare (values.length * b.elemSize) b.raw.bytes = .gt := by
      rw [Nat.compare_eq_gt, hbytes, Nat.mul_comm b.elemSize b.raw.len]
      exact Nat.mul_lt_mul_of_pos_right h hE
    simp [Buffer.write_whole, hc]
  · have hc : compare (values.length * b.elemSize) b.raw.bytes = .eq := by
      rw [Nat.compare_eq_eq, hbytes, h, Nat.mul_comm]
    have hdiv : values.length * b.elemSize / b.elemSize = values.length :=
      Nat.mul_div_cancel _ hE
    have hdrop : b.contents.drop values.length = [] :=
      List.drop_eq_nil_of_le (by omega)
    simp [Buffer.write_whole, hc, hdiv, hdrop]

/-- Witness for C2 (amended): `Buffer Nat` of length 2 with 8-byte elements;
an input of length 1 is rejected as too few, of length 3 as too many, and of
length 2 overwrites both elements. -/
theorem write_whole_size_check_witness :
    ((([9] : List Nat).length < 2 →
        (Buffer.write_whole (⟨⟨1, 16, 2⟩, 8, [0, 0]⟩ : Buffer Nat) [9]).1 =
          .error (.TooFewValues 1 2) ∧
          (Buffer.write_whole (⟨⟨1, 16, 2⟩, 8, [0, 0]⟩ : Buffer Nat) [9]).2.1 =
            ⟨⟨1, 16, 2⟩, 8, [0, 0]⟩ ∧
          (Buffer.write_whole (⟨⟨1, 16, 2⟩, 8, [0, 0]⟩ : Buffer Nat) [9]).2.2 = []) ∧
      (2 < ([9] : List Nat).length →
        (Buffer.write_whole (⟨⟨1, 16, 2⟩, 8, [0, 0]⟩ : Buffer Nat) [9]).1 =
          .error (.TooManyValues 1 2) ∧
          (Buffer.write_whole (⟨⟨1, 16, 2⟩, 8, [0, 0]⟩ : Buffer Nat) [9]).2.1 =
            ⟨⟨1, 16, 2⟩, 8, [0, 0]⟩ ∧
          (Buffer.write_whole (⟨⟨1, 16, 2⟩, 8, [0, 0]⟩ : Buffer Nat) [9]).2.2 = []) ∧
      (([9] : List Nat).length = 2 →
        (Buffer.write_whole (⟨⟨1, 16, 2⟩, 8, [0, 0]⟩ : Buffer Nat) [9]).1 = .ok () ∧
          (Buffer.write_whole (⟨⟨1, 16, 2⟩, 8, [0, 0]⟩ : Buffer Nat) [9]).2.1.contents =
            [9])) ∧
      (Buffer.write_whole (⟨⟨1, 16, 2⟩, 8, [0, 0]⟩ : Buffer Nat) [9]).1 =
        .error (.TooFewValues 1 2) := by
  have h := write_whole_size_check (⟨⟨1, 16, 2⟩, 8, [0, 0]⟩ : Buffer Nat) [9]
    (by decide) (by decide) (by decide)
  exact ⟨h, (h.1 (by decide)).1⟩

/-- C7: `as_slice` and `as_slice_mut` bind the handle and then request a map
(read-only respectively read-write), return `MapFailed` exactly when the
driver's map call returns a null pointer, and on success return a view that
derefs to a contiguous sequence of length equal to the owning buffer's
element count. -/
theorem as_slice_map_failed_iff_null {T : Type} (r : RawBuffer) (mem : List T)
    (hm : mem.length = r.len) :
    (r.as_slice T none).1 = .error .MapFailed ∧
      (r.as_slice_mut T none).1 = .error .MapFailed ∧
      (r.as_slice T none).2 = [.bindArrayBuffer r.handle, .mapBuffer .readOnly] ∧
      (r.as_slice_mut T none).2 = [.bindArrayBuffer r.handle, .mapBuffer .readWrite] ∧
      (r.as_slice T (some mem)).1 = .ok ⟨r, mem⟩ ∧
      (r.as_slice_mut T (some mem)).1 = .ok ⟨r, mem⟩ ∧
      (BufferSlice.deref ⟨r, mem⟩ : List T) = mem ∧
      (BufferSlice.deref ⟨r, mem⟩ : List T).length = r.len ∧
      (BufferSliceMut.deref ⟨r, mem⟩ : List T) = mem ∧
      (BufferSliceMut.deref ⟨r, mem⟩ : List T).length = r.len := by
  refine ⟨rfl, rfl, rfl, rfl, rfl, rfl, ?_, ?_, ?_, ?_⟩ <;>
    simp [BufferSlice.deref, BufferSliceMut.deref, ← hm]

/-- Witness for C7: a two-element raw buffer whose mapped memory holds
`[3, 4]`. -/
theorem as_slice_map_failed_iff_null_witness :
    (RawBuffer.as_slice ⟨1, 8, 2⟩ Nat none).1 = .error .MapFailed ∧
      (RawBuffer.as_slice_mut ⟨1, 8, 2⟩ Nat none).1 = .error .MapFailed ∧
      (RawBuffer.as_slice ⟨1, 8, 2⟩ Nat none).2 =
        [.bindArrayBuffer 1, .mapBuffer .readOnly] ∧
      (RawBuffer.as_slice_mut ⟨1, 8, 2⟩ Nat none).2 =
        [.bindArrayBuffer 1, .mapBuffer .readWrite] ∧
      (RawBuffer.as_slice ⟨1, 8, 2⟩ Nat (some [3, 4])).1 = .ok ⟨⟨1, 8, 2⟩, [3, 4]⟩ ∧
      (RawBuffer.as_slice_mut ⟨1, 8, 2⟩ Nat (some [3, 4])).1 = .ok ⟨⟨1, 8, 2⟩, [3, 4]⟩ ∧
      (BufferSlice.deref ⟨⟨1, 8, 2⟩, [3, 4]⟩ : List Nat) = [3, 4] ∧
      (BufferSlice.deref ⟨⟨1, 8, 2⟩, [3, 4]⟩ : List Nat).length = 2 ∧
      (BufferSliceMut.deref ⟨⟨1, 8, 2⟩, [3, 4]⟩ : List Nat) = [3, 4] ∧
      (BufferSliceMut.deref ⟨⟨1, 8, 2⟩, [3, 4]⟩ : List Nat).length = 2 :=
  as_slice_map_failed_iff_null ⟨1, 8, 2⟩ [3, 4] (by decide)

/-- C10: the typed element operations never report a map failure, because
after their bounds/size check they dereference the mapped pointer without a
null check: `at` has no error channel and returns `None` exactly when the
index is out of bounds; `set`'s only possible error is `Overflow(i, N)`;
`write_whole`'s only possible errors are the two size mismatches. `MapFailed`
can thus only come from `as_slice`/`as_slice_mut` (theorem
`as_slice_map_failed_iff_null`). -/
theorem typed_ops_never_map_failed {T : Type} (b : Buffer T) (i : Nat) (v : T)
    (values : List T) (hlen : b.contents.length = b.raw.len) :
    ((b.at' i).1 = none ↔ b.raw.len ≤ i) ∧
      ((b.set i v).1 = .ok () ∨ (b.set i v).1 = .error (.Overflow i b.raw.len)) ∧
      (∀ e, (b.write_whole values).1 = .error e →
        e = .TooFewValues values.length b.raw.len ∨
          e = .TooManyValues values.length b.raw.len) := by
  refine ⟨⟨fun h => ?_, fun h => ?_⟩, ?_, ?_⟩
  · by_contra hlt
    have hi : i < b.raw.len := by omega
    rw [Buffer.at', if_neg (by omega)] at h
    rw [List.getElem?_eq_getElem (by omega)] at h
    exact Option.noConfusion h
  · simp [Buffer.at', h]
  · rw [Buffer.set]
    split
    · exact Or.inr rfl
    · exact Or.inl rfl
  · intro e he
    rw [Buffer.write_whole] at he
    split at he
    · exact Or.inl (Except.error.inj he).symm
    · exact Or.inr (Except.error.inj he).symm
    · exact Except.noConfusion he

/-- Witness for C10: a one-element `Buffer Nat`, probed at indices 0 and
beyond. -/
theorem typed_ops_never_map_failed_witness :
    ((Buffer.at' (⟨⟨1, 4, 1⟩, 4, [5]⟩ : Buffer Nat) 2).1 = none ↔ 1 ≤ 2) ∧
      ((Buffer.set (⟨⟨1, 4, 1⟩, 4, [5]⟩ : Buffer Nat) 2 9).1 = .ok () ∨
        (Buffer.set (⟨⟨1, 4, 1⟩, 4, [5]⟩ : Buffer Nat) 2 9).1 =
          .error (.Overflow 2 1)) ∧
      (∀ e, (Buffer.write_whole (⟨⟨1, 4, 1⟩, 4, [5]⟩ : Buffer Nat) [7, 8]).1 =
          .error e →
        e = .TooFewValues 2 1 ∨ e = .TooManyValues 2 1) :=
  typed_ops_never_map_failed ⟨⟨1, 4, 1⟩, 4, [5]⟩ 2 9 [7, 8] (by decide)

/-- C4, evaluated at the failing input (a one-element `Buffer Nat` holding
`[42]`): `whole()` binds the handle, maps read-only, builds the returned
vector from the first `len` elements at the mapped pointer, unmaps, and
returns the stored elements in order. The source builds that vector with
`Vec::from_raw_parts(ptr, self.len, self.len)` on the mapped driver pointer
itself — no copy is made, so the returned vector aliases driver memory that
is unmapped before the function returns, contradicting the claim's "freshly
owned, non-aliasing" part. -/
theorem whole_eval_failing_input :
    Buffer.whole (⟨⟨1, 4, 1⟩, 4, [42]⟩ : Buffer Nat) =
      ([42], [.bindArrayBuffer 1, .mapBuffer .readOnly, .unmapBuffer]) :=
  rfl

/-- C8 counterexample: the source's nine `impl_uniform_block_tuple!`
invocations go from `(A, B)` up to the ten-component `(A, …, J)`, so a
10-tuple of `u8` carries the `UniformBlock` marker, while the claimed set
(`specCompatible`, tuples of arity 2–9 only) excludes it. -/
theorem tuple10_counterexample :
    uniformBlock
        (.tuple [.u8, .u8, .u8, .u8, .u8, .u8, .u8, .u8, .u8, .u8]) = true ∧
      specCompatible
        (.tuple [.u8, .u8, .u8, .u8, .u8, .u8, .u8, .u8, .u8, .u8]) = false := by
  constructor <;> simp [uniformBlock, specCompatible]

/-- C8 (amended): membership of the `UniformBlock` marker coincides with the
spec's enumerated set once the tuple arities are amended from 2–9 to 2–10:
the nine scalars, the float matrices, 2/3/4-element vectors of each scalar,
slices of compatible element type, and tuples of arity 2–10 of compatible
components — and nothing else. -/
theorem uniformBlock_eq_specCompatibleAmended (t : Ty) :
    uniformBlock t = specCompatibleAmended t := by
  induction t using uniformBlock.induct with
  | case15 ts ih =>
      rw [Bool.eq_iff_iff]
      simp only [uniformBlock, specCompatibleAmended, List.any_cons, List.any_nil,
        Bool.or_false, Bool.and_eq_true, Bool.or_eq_true, decide_eq_true_iff,
        beq_iff_eq, List.all_eq_true]
      constructor
      · rintro ⟨⟨h2, h10⟩, hall⟩
        exact ⟨by omega, fun x hx => (ih x) ▸ hall x hx⟩
      · rintro ⟨hmem, hall⟩
        exact ⟨⟨by omega, by omega⟩, fun x hx => (ih x).symm ▸ hall x hx⟩
  | _ => simp_all [uniformBlock, specCompatibleAmended, Bool.or_assoc]

end Luminance
